import Mathlib

/-!
Verification of MusicFileTools (albumArt.py and metadata.py) against its
natural-language specification.

The two Python scripts are shallowly embedded below.  Effects are made
explicit:

* the filesystem, the tag library, the image library and the network are
  collected into an environment record (`Env` / `MetaEnv`) of oracles:
  the content of `cover.jpg` (if the file exists), the matched `*.m4a`
  files with their tag sets, whether each fallible library call
  (`MP4(...)` construction, `audio.save()`, `cover_file.unlink()`)
  succeeds, and the responses of the two HTTP endpoints;
* every externally visible action (contacting the recording-search
  endpoint, contacting the cover-fetch endpoint, a tag write attempt,
  the inter-request sleep, the `cover.jpg` unlink attempt) is recorded
  as an event (`Ev`) in a trace;
* Python truthiness of the values the code tests with `if x:` is
  modelled exactly: `None`, the empty string and empty byte strings are
  falsy (`pyTruthyS` / `pyTruthyB`);
* byte strings are `List Nat`.

`resize_image` appears twice, at two levels of abstraction matching its
two roles in the claims: inside the folder/per-song drivers its
behaviour on raw bytes is an oracle (`Env.resizeFn`, returning `none`
when PIL fails to decode), while the claim about idempotence of the
normalization itself is settled against a dimensional model of the PIL
pipeline (`resize_image` on `PImage` below, with PIL's floating-point
aspect arithmetic carried out in exact integer arithmetic).
-/

namespace MusicFileTools

/-- Raw image / file bytes. -/
abbrev ByteStr := List Nat

/-- Python truthiness of an optional string (`None` and `""` are falsy). -/
def pyTruthyS : Option String → Bool
  | none => false
  | some s => !s.isEmpty

/-- Python truthiness of optional bytes (`None` and `b""` are falsy). -/
def pyTruthyB : Option ByteStr → Bool
  | none => false
  | some b => !b.isEmpty

/-- First value of an optional string, empty string when absent. -/
def orEmpty : Option String → String
  | none => ""
  | some s => s

/-- The tag slots of one `.m4a` file that the scripts touch:
`\xa9nam` (title), `\xa9ART` (artist), `\xa9alb` (album), `covr`.
A tag value of `none` means the tag is absent from the container. -/
structure Tags where
  title : Option String
  artist : Option String
  album : Option String
  covr : Option ByteStr
deriving DecidableEq

/-- One file matched by `folder.glob("*.m4a")`: its name, its tag set,
and whether the two fallible tag-library calls on it succeed
(`openOk` models `MP4(path)` raising, `saveOk` models the
`audio[...] = ...; audio.save()` step raising). -/
structure SongFile where
  name : String
  tags : Tags
  openOk : Bool
  saveOk : Bool
deriving DecidableEq

/-- Externally visible actions of one run, in order. -/
inductive Ev where
  | mbSearch (title artist : Option String)
  | coverFetch (releaseId : String)
  | write (name : String) (bytes : ByteStr) (ok : Bool)
  | sleep
  | unlink (ok : Bool)
deriving DecidableEq

/-- `true` exactly on the two remote HTTP calls. -/
def isRemoteEv : Ev → Bool
  | Ev.mbSearch _ _ => true
  | Ev.coverFetch _ => true
  | _ => false

/-- The world one invocation of albumArt.py on one folder runs in. -/
structure Env where
  /-- `folder.is_dir()` -/
  isDir : Bool
  /-- `list(folder.glob("*.m4a"))`, in glob order -/
  m4aFiles : List SongFile
  /-- content of `folder / "cover.jpg"` when that file exists -/
  cover : Option ByteStr
  /-- `folder.name` -/
  folderName : String
  /-- behaviour of `resize_image` on raw bytes: `none` models the
  internal `except` path (undecodable data) -/
  resizeFn : ByteStr → Option ByteStr
  /-- outcome of the MusicBrainz recording-search HTTP call for a given
  (title, artist) query: the first recording's first release id, or
  `none` for non-200 / exception / empty result lists -/
  mbResponse : Option String → Option String → Option String
  /-- outcome of the Cover Art Archive HTTP call for a release id:
  the body bytes on status 200, `none` otherwise -/
  coverResponse : String → Option ByteStr
  /-- whether `cover_file.unlink()` succeeds -/
  unlinkOk : Bool

/-- `search_musicbrainz` builds no query when both fields are falsy. -/
def mbQueryEmpty (title artist : Option String) : Bool :=
  !pyTruthyS title && !pyTruthyS artist

/-- albumArt.py `search_musicbrainz`: returns the release id (or `None`)
and the trace of remote calls made.  With an empty query it returns
before any HTTP request. -/
def search_musicbrainz (env : Env) (title artist : Option String) :
    Option String × List Ev :=
  if mbQueryEmpty title artist then (none, [])
  else (env.mbResponse title artist, [Ev.mbSearch title artist])

/-- albumArt.py `get_cover_art`: one HTTP GET by release id. -/
def get_cover_art (env : Env) (releaseId : String) : Option ByteStr × List Ev :=
  (env.coverResponse releaseId, [Ev.coverFetch releaseId])

/-- albumArt.py `search_album_art`: the two-step remote lookup.
A falsy release id stops before the cover fetch; falsy cover bytes
become `None`. -/
def search_album_art (env : Env) (title artist : Option String) :
    Option ByteStr × List Ev :=
  let m := search_musicbrainz env title artist
  if pyTruthyS m.1 then
    let c := get_cover_art env (orEmpty m.1)
    ((if pyTruthyB c.1 then c.1 else none), m.2 ++ c.2)
  else (none, m.2)

/-- albumArt.py `load_local_cover`: content of `cover.jpg` when present.
(The read itself is modelled as succeeding; the `except` print-path is
not representable in this state model.) -/
def load_local_cover (env : Env) : Option ByteStr :=
  env.cover

/-- albumArt.py `create_default_artwork`: the JPEG encoding of the
512x512 flat-gray placeholder.  The bytes are opaque here; what matters
is that PIL's encoder always produces a non-empty JPEG body, modelled
by a fixed non-empty byte string (0xFF 0xD8 ... 0xFF 0xD9). -/
def create_default_artwork : ByteStr := [255, 216, 50, 50, 50, 255, 217]

/-- Lines 151-160 and 164-167 of albumArt.py: the search text and
artist derived from the first file's tags (folder name when the tags
give nothing or the file cannot be opened). -/
def sharedQuery (f0 : SongFile) (folderName : String) : String × Option String :=
  if f0.openOk then
    if pyTruthyS f0.tags.album then (orEmpty f0.tags.album, f0.tags.artist)
    else if pyTruthyS f0.tags.title then (orEmpty f0.tags.title, f0.tags.artist)
    else (folderName, none)
  else (folderName, none)

/-- The final fallback of both modes: `if not image_data: image_data =
create_default_artwork()` -/
def finalizeImage (r : Option ByteStr) : ByteStr :=
  if pyTruthyB r then
    match r with
    | some b => b
    | none => create_default_artwork
  else create_default_artwork

/-- Outcome of the shared-mode artwork resolution (lines 133-177):
the bytes handed to the write loop, the `used_local_cover` flag, the
`(search_title, search_artist)` pair when the remote branch ran, and
the remote-call trace. -/
structure Resolution where
  image : ByteStr
  usedLocal : Bool
  searchInfo : Option (String × Option String)
  events : List Ev
deriving DecidableEq

/-- Lines 133-177 of `add_album_art_to_folder`. -/
def sharedResolve (env : Env) (f0 : SongFile) : Resolution :=
  if pyTruthyB (load_local_cover env) then
    { image := finalizeImage (env.resizeFn ((load_local_cover env).getD []))
      usedLocal := true
      searchInfo := none
      events := [] }
  else
    let q := sharedQuery f0 env.folderName
    let s := search_album_art env (some q.1) q.2
    let resized := if pyTruthyB s.1 then env.resizeFn (s.1.getD []) else s.1
    { image := finalizeImage resized
      usedLocal := false
      searchInfo := some q
      events := s.2 }

/-- Accumulated outcome of a write loop / per-song loop: the two
counters, the trace, and the final states of the files. -/
structure RunOut where
  succeeded : Nat
  failed : Nat
  events : List Ev
  files : List SongFile
deriving DecidableEq

/-- Lines 180-189: write the same bytes into every file; each file
independently succeeds (`covr` replaced, counter bumped) or fails
(file untouched, counter bumped). -/
def writeLoop (img : ByteStr) : List SongFile → RunOut
  | [] => { succeeded := 0, failed := 0, events := [], files := [] }
  | f :: fs =>
    let ok := f.openOk && f.saveOk
    let w := writeLoop img fs
    { succeeded := (if ok then 1 else 0) + w.succeeded
      failed := (if ok then 0 else 1) + w.failed
      events := Ev.write f.name img ok :: w.events
      files := (if ok then { f with tags := { f.tags with covr := some img } } else f)
        :: w.files }

/-- Full observable outcome of `add_album_art_to_folder`. -/
structure SharedRun where
  succeeded : Nat
  failed : Nat
  usedLocal : Bool
  searchInfo : Option (String × Option String)
  artwork : Option ByteStr
  events : List Ev
  files : List SongFile
  deletionAttempted : Bool
  coverAfter : Option ByteStr
deriving DecidableEq

/-- albumArt.py `add_album_art_to_folder` (shared mode).  Returns the
counters the script returns plus the trace and final file/cover state.
`artwork = none` only on the two early returns (invalid directory, no
matched files).  Deletion of `cover.jpg` is attempted exactly under the
source condition `used_local_cover and failed == 0 and succeeded > 0`;
a failed unlink leaves the counters untouched. -/
def add_album_art_to_folder (env : Env) : SharedRun :=
  if env.isDir then
    match env.m4aFiles with
    | [] =>
      { succeeded := 0, failed := 0, usedLocal := false, searchInfo := none
        artwork := none, events := [], files := [], deletionAttempted := false
        coverAfter := env.cover }
    | f0 :: rest =>
      let res := sharedResolve env f0
      let w := writeLoop res.image (f0 :: rest)
      let attempt := res.usedLocal && decide (w.failed = 0) && decide (0 < w.succeeded)
      { succeeded := w.succeeded
        failed := w.failed
        usedLocal := res.usedLocal
        searchInfo := res.searchInfo
        artwork := some res.image
        events := res.events ++ w.events ++ (if attempt then [Ev.unlink env.unlinkOk] else [])
        files := w.files
        deletionAttempted := attempt
        coverAfter := if attempt && env.unlinkOk then none else env.cover }
  else
    { succeeded := 0, failed := 0, usedLocal := false, searchInfo := none
      artwork := none, events := [], files := env.m4aFiles, deletionAttempted := false
      coverAfter := env.cover }

/-- `Path(name).stem` for a file matched by `glob("*.m4a")`: the name
with the 4-character `.m4a` suffix removed. -/
def stemOf (s : String) : String := s.dropRight 4

/-- Lines 229-240 of `add_album_art_per_song`: title/artist from the
tags, falling back to splitting the filename on the first `" - "`
(Python `split(' - ', 1)`, both parts stripped); with no separator the
whole stem is the title and the artist keeps its falsy tag value. -/
def perSongQuery (f : SongFile) : Option String × Option String :=
  if !pyTruthyS f.tags.title && !pyTruthyS f.tags.artist then
    let filename := stemOf f.name
    match filename.splitOn (" - ") with
    | p0 :: p1 :: more =>
      (some p0.trim, some ((String.intercalate (" - ") (p1 :: more)).trim))
    | _ => (some filename, f.tags.artist)
  else (f.tags.title, f.tags.artist)

/-- Lines 245-248: per-song remote lookup followed by the guarded
resize.  Returns the (possibly falsy) bytes and the remote trace. -/
def perSongImage (env : Env) (f : SongFile) : Option ByteStr × List Ev :=
  let q := perSongQuery f
  let s := search_album_art env q.1 q.2
  ((if pyTruthyB s.1 then env.resizeFn (s.1.getD []) else s.1), s.2)

/-- Lines 224-267: processing of one file in per-song mode.  The whole
body runs in one `try`: a failed `MP4(...)` open aborts the file with
`failed += 1` and nothing else; otherwise the lookup outcome bumps
`failed` (placeholder substituted) or `succeeded` BEFORE the save, and
a save exception adds one more `failed` and skips the trailing
`time.sleep(1.1)`. -/
def processSong (env : Env) (d : ByteStr) (f : SongFile) : RunOut :=
  if f.openOk then
    let li := perSongImage env f
    let lookupOk := pyTruthyB li.1
    let imgF := if lookupOk then li.1.getD [] else d
    let s0 := if lookupOk then 1 else 0
    let f0 := if lookupOk then 0 else 1
    if f.saveOk then
      { succeeded := s0, failed := f0
        events := li.2 ++ [Ev.write f.name imgF true, Ev.sleep]
        files := [{ f with tags := { f.tags with covr := some imgF } }] }
    else
      { succeeded := s0, failed := f0 + 1
        events := li.2 ++ [Ev.write f.name imgF false]
        files := [f] }
  else { succeeded := 0, failed := 1, events := [], files := [f] }

/-- The per-song loop over the matched files. -/
def processSongs (env : Env) (d : ByteStr) : List SongFile → RunOut
  | [] => { succeeded := 0, failed := 0, events := [], files := [] }
  | f :: fs =>
    let r := processSong env d f
    let w := processSongs env d fs
    { succeeded := r.succeeded + w.succeeded
      failed := r.failed + w.failed
      events := r.events ++ w.events
      files := r.files ++ w.files }

/-- albumArt.py `add_album_art_per_song` (per-file mode). -/
def add_album_art_per_song (env : Env) : RunOut :=
  if env.isDir then
    match env.m4aFiles with
    | [] => { succeeded := 0, failed := 0, events := [], files := [] }
    | f :: fs => processSongs env create_default_artwork (f :: fs)
  else { succeeded := 0, failed := 0, events := [], files := env.m4aFiles }

/-- The `__main__` block of albumArt.py.  `args` is `sys.argv[1:]`,
`envOf` gives the world of each folder path.  Returns the process exit
code and the accumulated (total_succeeded, total_failed).  After a
successful argument parse the script never calls `sys.exit`, so the
interpreter exits 0. -/
def albumArt_main (args : List String) (envOf : String → Env) : Nat × Nat × Nat :=
  match args with
  | [] => (1, 0, 0)
  | a1 :: rest =>
    if a1 = "album" then
      match rest with
      | [] => (1, 0, 0)
      | f1 :: more =>
        let t := (f1 :: more).foldl
          (fun acc fp =>
            let r := add_album_art_to_folder (envOf fp)
            (acc.1 + r.succeeded, acc.2 + r.failed)) (0, 0)
        (0, t.1, t.2)
    else
      let t := (a1 :: rest).foldl
        (fun acc fp =>
          let r := add_album_art_per_song (envOf fp)
          (acc.1 + r.succeeded, acc.2 + r.failed)) (0, 0)
      (0, t.1, t.2)

/-! ## metadata.py -/

/-- The world one invocation of metadata.py runs in. -/
structure MetaEnv where
  /-- `folder.is_dir()` -/
  isDir : Bool
  /-- `folder.glob("*.m4a")`, in glob order -/
  files : List SongFile
  /-- `Path(folder_path).name` -/
  folderName : String

/-- Lines 16-22 of metadata.py on one tag set: delete `\xa9alb` if
present, then set it when the provided value is truthy. -/
def setAlbumTags (v : Option String) (t : Tags) : Tags :=
  let t1 := if t.album.isSome then { t with album := none } else t
  if pyTruthyS v then { t1 with album := v } else t1

/-- Lines 13-27 of metadata.py on one file: the read-modify-save
sequence is wrapped per file; an exception anywhere in it leaves the
on-disk file unchanged (the in-memory edits are never persisted). -/
def updateAlbumFile (v : Option String) (f : SongFile) : SongFile :=
  if f.openOk && f.saveOk then { f with tags := setAlbumTags v f.tags } else f

/-- metadata.py `update_m4a_metadata`: `none` models the `sys.exit(1)`
taken on an invalid directory; otherwise the resulting file states.
`album_name = none` models passing Python `None` (the `del` command). -/
def update_m4a_metadata (env : MetaEnv) (album_name : Option String) :
    Option (List SongFile) :=
  if env.isDir then some (env.files.map (updateAlbumFile album_name)) else none

/-- The `__main__` block of metadata.py: `args` is `sys.argv[1:]`.
Returns the process exit code: 1 on missing arguments, unknown command
or invalid directory (`sys.exit(1)` inside `update_m4a_metadata`),
otherwise 0.  For `set` without an explicit value the folder's own
name is used. -/
def metadata_main (args : List String) (envOf : String → MetaEnv) : Nat :=
  match args with
  | cmd :: folderPath :: rest =>
    if cmd = "set" then
      let albumName :=
        match rest with
        | a :: _ => a
        | [] => (envOf folderPath).folderName
      match update_m4a_metadata (envOf folderPath) (some albumName) with
      | some _ => 0
      | none => 1
    else if cmd = "del" then
      match update_m4a_metadata (envOf folderPath) none with
      | some _ => 0
      | none => 1
    else 1
  | _ => 1

/-! ## The image-normalization pipeline of `resize_image`

Dimensional model of lines 90-106 of albumArt.py together with the PIL
collaborators they call.  A decoded image is its pixel-grid dimensions
plus its color mode; the JPEG bytes produced by `img.save(...,
format='JPEG', quality=95)` are modelled by the dimensions they encode
(a PIL JPEG decode of them restores exactly those dimensions, in RGB).
`Image.thumbnail` is modelled following PIL's source: the floating
point `aspect` arithmetic is carried out as exact integer arithmetic on
the cross-multiplied comparisons, `math.floor`/`math.ceil` as `Nat`
floor/ceiling division, and `min(floor, ceil, key=key)` picks floor on
equal keys, as Python `min` does. -/

/-- PIL color mode, as far as line 95 (`img.mode != 'RGB'`) cares. -/
inductive PMode where
  | RGB
  | other
deriving DecidableEq

/-- A decoded PIL image. -/
structure PImage where
  width : Nat
  height : Nat
  mode : PMode
deriving DecidableEq

/-- JPEG bytes produced by `img.save(output, format='JPEG', quality=95)`
from an RGB image: dimensionally, the pair they encode. -/
structure JpegBytes where
  width : Nat
  height : Nat
deriving DecidableEq

/-- `Image.open` on bytes that came out of the JPEG encoder above. -/
def openImage (j : JpegBytes) : PImage :=
  { width := j.width, height := j.height, mode := PMode.RGB }

/-- The JPEG encode step. -/
def saveJpeg (i : PImage) : JpegBytes :=
  { width := i.width, height := i.height }

/-- Ceiling division (`math.ceil(a / b)` for naturals, 0 when b = 0). -/
def ceilDiv (a b : Nat) : Nat := (a + b - 1) / b

/-- PIL `round_aspect(y * aspect, key=lambda n: abs(aspect - n / y))`
with `aspect = w / h`: choose between floor and ceiling of `y * w / h`
by which is nearer to the target aspect (floor on a tie), at least 1.
Keys `|w / h - n / y|` are compared over the common denominator `h * y`. -/
def roundAspectFit (w h y : Nat) : Nat :=
  let f := y * w / h
  let c := ceilDiv (y * w) h
  let keyLe : Bool :=
    ((w * y : Int) - (f * h : Nat)).natAbs ≤ ((w * y : Int) - (c * h : Nat)).natAbs
  max (if keyLe then f else c) 1

/-- PIL `round_aspect(x / aspect, key=lambda n: x / n if n else inf)`
with `aspect = w / h`: choose between floor and ceiling of `x * h / w`
by the key `x / n` (infinite at `n = 0`), at least 1.  For positive
candidates `x / f ≤ x / c` iff `x * c ≤ x * f`. -/
def roundAspectRecip (w h x : Nat) : Nat :=
  let f := x * h / w
  let c := ceilDiv (x * h) w
  let keyLe : Bool := if f = 0 then c = 0 else x * c ≤ x * f
  max (if keyLe then f else c) 1

/-- PIL `Image.thumbnail((x, y))` on a w x h image: no-op when the
image already fits, otherwise scale preserving aspect ratio so that
the result fits in the box.  The branch test `x / y >= aspect` is the
cross-multiplied `x * h >= w * y`. -/
def thumbnailSize (w h x y : Nat) : Nat × Nat :=
  if x ≥ w ∧ y ≥ h then (w, h)
  else if x * h ≥ w * y then (roundAspectFit w h y, y)
  else (x, roundAspectRecip w h x)

/-- albumArt.py `resize_image`, dimensionally: convert to RGB when
needed, downscale via `thumbnail` only when either dimension exceeds
`maxSize`. -/
def resize_image (img : PImage) (maxSize : Nat) : PImage :=
  let img1 := if img.mode ≠ PMode.RGB then { img with mode := PMode.RGB } else img
  if img1.width > maxSize ∨ img1.height > maxSize then
    let sz := thumbnailSize img1.width img1.height maxSize maxSize
    { width := sz.1, height := sz.2, mode := img1.mode }
  else img1

/-- `resize_image` from bytes to bytes with the source default
`max_size=512`: decode, normalize, re-encode. -/
def resize_image_bytes (data : JpegBytes) : JpegBytes :=
  saveJpeg (resize_image (openImage data) 512)

/-! ## Helper lemmas -/

theorem pyTruthyB_some_iff (b : ByteStr) : pyTruthyB (some b) = true ↔ b ≠ [] := by
  simp [pyTruthyB]

theorem pyTruthyB_true_getD (r : Option ByteStr) (h : pyTruthyB r = true) :
    r.getD [] ≠ [] := by
  cases r with
  | none => simp [pyTruthyB] at h
  | some b => simpa using (pyTruthyB_some_iff b).mp h

theorem create_default_artwork_ne_nil : create_default_artwork ≠ [] := by decide

theorem finalizeImage_ne_nil (r : Option ByteStr) : finalizeImage r ≠ [] := by
  unfold finalizeImage
  by_cases h : pyTruthyB r = true
  · cases r with
    | none => simp [pyTruthyB] at h
    | some b => simpa [h] using (pyTruthyB_some_iff b).mp h
  · simpa [h] using create_default_artwork_ne_nil

theorem writeLoop_counts (img : ByteStr) (fs : List SongFile) :
    (writeLoop img fs).succeeded + (writeLoop img fs).failed = fs.length := by
  induction fs with
  | nil => simp [writeLoop]
  | cons f fs ih =>
    by_cases hok : (f.openOk && f.saveOk) = true <;>
      simp [writeLoop, hok] <;> omega

theorem writeLoop_failed_zero (img : ByteStr) (fs : List SongFile) :
    (writeLoop img fs).failed = 0 ↔ ∀ f ∈ fs, f.openOk = true ∧ f.saveOk = true := by
  induction fs with
  | nil => simp [writeLoop]
  | cons f fs ih =>
    by_cases hok : (f.openOk && f.saveOk) = true
    · have hps := Bool.and_eq_true_iff.mp hok
      simp [writeLoop, hok, ih, hps.1, hps.2]
    · have hps : ¬(f.openOk = true ∧ f.saveOk = true) := by
        intro hc
        exact hok (Bool.and_eq_true_iff.mpr hc)
      simp [writeLoop, hok, hps]

theorem writeLoop_events_shape (img : ByteStr) (fs : List SongFile) :
    ∀ e ∈ (writeLoop img fs).events, ∃ n ok, e = Ev.write n img ok := by
  induction fs with
  | nil => simp [writeLoop]
  | cons f fs ih =>
    intro e he
    simp only [writeLoop, List.mem_cons] at he
    cases he with
    | inl h => exact ⟨f.name, f.openOk && f.saveOk, h⟩
    | inr h => exact ih e h

theorem search_album_art_events_remote (env : Env) (t a : Option String) :
    ∀ e ∈ (search_album_art env t a).2, isRemoteEv e = true := by
  intro e he
  unfold search_album_art search_musicbrainz get_cover_art at he
  by_cases hq : mbQueryEmpty t a = true
  · simp [hq, pyTruthyS] at he
  · by_cases hr : pyTruthyS (env.mbResponse t a) = true
    · simp [hq, hr] at he
      rcases he with h | h <;> simp [h, isRemoteEv]
    · simp [hq, hr] at he
      simp [he, isRemoteEv]

theorem perSongImage_events_remote (env : Env) (f : SongFile) :
    ∀ e ∈ (perSongImage env f).2, isRemoteEv e = true := by
  intro e he
  unfold perSongImage at he
  exact search_album_art_events_remote env (perSongQuery f).1 (perSongQuery f).2 e he

/-! ## Helper lemmas for the image model -/

theorem ceilDiv_le (a b k : Nat) (hb : 0 < b) (h : a ≤ k * b) : ceilDiv a b ≤ k := by
  unfold ceilDiv
  have hx : (k + 1) * b = k * b + b := by ring
  have hlt : a + b - 1 < (k + 1) * b := by omega
  exact Nat.lt_succ_iff.mp ((Nat.div_lt_iff_lt_mul hb).mpr hlt)

theorem div_le_ceilDiv (a b : Nat) : a / b ≤ ceilDiv a b := by
  unfold ceilDiv
  rcases Nat.eq_zero_or_pos b with hb | hb
  · simp [hb]
  · exact Nat.div_le_div_right (by omega)

theorem roundAspectFit_le (w h m : Nat) (hm : 1 ≤ m) (hcond : w * m ≤ m * h) :
    roundAspectFit w h m ≤ m := by
  unfold roundAspectFit
  dsimp only
  apply Nat.max_le.mpr
  refine ⟨?_, hm⟩
  rcases Nat.eq_zero_or_pos h with hh | hh
  · have hw : w = 0 := by
      rcases Nat.eq_zero_or_pos w with hw | hw
      · exact hw
      · exfalso
        have hpos : 0 < w * m := Nat.mul_pos hw hm
        subst hh
        simp at hcond
        omega
    subst hh hw
    split <;> simp [ceilDiv]
  · have hc : ceilDiv (m * w) h ≤ m := by
      apply ceilDiv_le _ _ _ hh
      calc m * w = w * m := Nat.mul_comm m w
        _ ≤ m * h := hcond
    have hf : m * w / h ≤ m := le_trans (div_le_ceilDiv (m * w) h) hc
    split
    · exact hf
    · exact hc

theorem roundAspectRecip_le (w h m : Nat) (hm : 1 ≤ m) (hcond : m * h < w * m) :
    roundAspectRecip w h m ≤ m := by
  unfold roundAspectRecip
  dsimp only
  apply Nat.max_le.mpr
  refine ⟨?_, hm⟩
  have hmw : m * h < m * w := by
    have hrw : w * m = m * w := Nat.mul_comm w m
    omega
  have hhw : h < w := Nat.lt_of_mul_lt_mul_left hmw
  have hw : 0 < w := by omega
  have hc : ceilDiv (m * h) w ≤ m := by
    apply ceilDiv_le _ _ _ hw
    exact Nat.mul_le_mul (le_refl m) (le_of_lt hhw)
  have hf : m * h / w ≤ m := le_trans (div_le_ceilDiv (m * h) w) hc
  split <;> split <;> first | exact hf | exact hc

theorem thumbnailSize_le (w h m : Nat) (hm : 1 ≤ m) :
    (thumbnailSize w h m m).1 ≤ m ∧ (thumbnailSize w h m m).2 ≤ m := by
  unfold thumbnailSize
  by_cases h1 : m ≥ w ∧ m ≥ h
  · simp [h1]
  · by_cases h2 : m * h ≥ w * m
    · simp [h1, h2]
      exact roundAspectFit_le w h m hm h2
    · simp [h1, h2]
      exact roundAspectRecip_le w h m hm (by omega)

theorem roundAspectFit_pos (w h y : Nat) : 1 ≤ roundAspectFit w h y := by
  unfold roundAspectFit
  dsimp only
  exact Nat.le_max_right _ 1

theorem roundAspectRecip_pos (w h x : Nat) : 1 ≤ roundAspectRecip w h x := by
  unfold roundAspectRecip
  dsimp only
  exact Nat.le_max_right _ 1

theorem thumbnailSize_pos (w h m : Nat) (hm : 1 ≤ m) (hw : 1 ≤ w) (hh : 1 ≤ h) :
    1 ≤ (thumbnailSize w h m m).1 ∧ 1 ≤ (thumbnailSize w h m m).2 := by
  unfold thumbnailSize
  by_cases h1 : m ≥ w ∧ m ≥ h
  · simp [h1]
    exact ⟨hw, hh⟩
  · by_cases h2 : m * h ≥ w * m
    · simp [h1, h2]
      exact ⟨roundAspectFit_pos w h m, hm⟩
    · simp [h1, h2]
      exact ⟨hm, roundAspectRecip_pos w h m⟩

theorem resize_image_mode (i : PImage) (m : Nat) :
    (resize_image i m).mode = PMode.RGB := by
  unfold resize_image
  by_cases hmode : i.mode = PMode.RGB
  · simp [hmode]
    split <;> simp [hmode]
  · simp [hmode]
    split <;> simp

theorem resize_image_le (i : PImage) (m : Nat) (hm : 1 ≤ m) :
    (resize_image i m).width ≤ m ∧ (resize_image i m).height ≤ m := by
  unfold resize_image
  by_cases hmode : i.mode = PMode.RGB <;> simp [hmode]
  · by_cases hbig : i.width > m ∨ i.height > m
    · simp [hbig]
      exact thumbnailSize_le i.width i.height m hm
    · simp [hbig]
      omega
  · by_cases hbig : i.width > m ∨ i.height > m
    · simp [hbig]
      exact thumbnailSize_le i.width i.height m hm
    · simp [hbig]
      omega

theorem resize_image_pos (i : PImage) (m : Nat) (hm : 1 ≤ m)
    (hw : 1 ≤ i.width) (hh : 1 ≤ i.height) :
    1 ≤ (resize_image i m).width ∧ 1 ≤ (resize_image i m).height := by
  unfold resize_image
  by_cases hmode : i.mode = PMode.RGB <;> simp [hmode]
  · by_cases hbig : i.width > m ∨ i.height > m
    · simp [hbig]
      exact thumbnailSize_pos i.width i.height m hm hw hh
    · simp [hbig]
      exact ⟨hw, hh⟩
  · by_cases hbig : i.width > m ∨ i.height > m
    · simp [hbig]
      exact thumbnailSize_pos i.width i.height m hm hw hh
    · simp [hbig]
      exact ⟨hw, hh⟩

theorem resize_image_fixed (i : PImage) (m : Nat) (hmode : i.mode = PMode.RGB)
    (hw : i.width ≤ m) (hh : i.height ≤ m) : resize_image i m = i := by
  unfold resize_image
  have hbig : ¬(i.width > m ∨ i.height > m) := by omega
  simp [hmode, hbig]

theorem resize_image_idem (i : PImage) (m : Nat) (hm : 1 ≤ m) :
    resize_image (resize_image i m) m = resize_image i m :=
  resize_image_fixed _ m (resize_image_mode i m)
    (resize_image_le i m hm).1 (resize_image_le i m hm).2

theorem openImage_saveJpeg (i : PImage) (hmode : i.mode = PMode.RGB) :
    openImage (saveJpeg i) = i := by
  cases i with
  | mk w h md =>
    simp only [PImage.mk.injEq] at hmode ⊢
    simp [openImage, saveJpeg, hmode]

/-! ## Run-characterization lemmas -/

theorem add_album_art_to_folder_eq (env : Env) (f0 : SongFile) (rest : List SongFile)
    (hdir : env.isDir = true) (hfiles : env.m4aFiles = f0 :: rest) :
    add_album_art_to_folder env =
      (let res := sharedResolve env f0
       let w := writeLoop res.image (f0 :: rest)
       let attempt := res.usedLocal && decide (w.failed = 0) && decide (0 < w.succeeded)
       { succeeded := w.succeeded
         failed := w.failed
         usedLocal := res.usedLocal
         searchInfo := res.searchInfo
         artwork := some res.image
         events := res.events ++ w.events ++ (if attempt then [Ev.unlink env.unlinkOk] else [])
         files := w.files
         deletionAttempted := attempt
         coverAfter := if attempt && env.unlinkOk then none else env.cover }) := by
  unfold add_album_art_to_folder
  rw [hfiles, hdir]
  simp

theorem sharedResolve_unlink_invariant (env : Env) (b : Bool) (f0 : SongFile) :
    sharedResolve { env with unlinkOk := b } f0 = sharedResolve env f0 := rfl

theorem sharedResolve_image_ne_nil (env : Env) (f0 : SongFile) :
    (sharedResolve env f0).image ≠ [] := by
  unfold sharedResolve
  by_cases h : pyTruthyB (load_local_cover env) = true <;>
    simp [h, finalizeImage_ne_nil]

theorem sharedResolve_events_remote (env : Env) (f0 : SongFile) :
    ∀ e ∈ (sharedResolve env f0).events, isRemoteEv e = true := by
  intro e he
  unfold sharedResolve at he
  by_cases h : pyTruthyB (load_local_cover env) = true
  · simp [h] at he
  · simp only [h] at he
    simp only [Bool.false_eq_true, if_false] at he
    exact search_album_art_events_remote env _ _ e he

theorem processSong_write_bytes (env : Env) (d : ByteStr) (f : SongFile) (hd : d ≠ []) :
    ∀ n b ok, Ev.write n b ok ∈ (processSong env d f).events → b ≠ [] := by
  intro n b ok hmem
  unfold processSong at hmem
  by_cases ho : f.openOk = true
  · simp only [ho, if_true] at hmem
    by_cases hl : pyTruthyB (perSongImage env f).1 = true <;>
      by_cases hs : f.saveOk = true <;>
        simp only [hl, hs, Bool.false_eq_true, if_true, if_false, List.mem_append,
          List.mem_cons, List.mem_singleton, List.not_mem_nil] at hmem <;>
      rcases hmem with h | h
    · exact absurd (perSongImage_events_remote env f _ h) (by simp [isRemoteEv])
    · rcases h with h | h
      · cases h
        exact pyTruthyB_true_getD _ hl
      · rcases h with h | h
        · cases h
        · cases h
    · exact absurd (perSongImage_events_remote env f _ h) (by simp [isRemoteEv])
    · rcases h with h | h
      · cases h
        exact pyTruthyB_true_getD _ hl
      · cases h
    · exact absurd (perSongImage_events_remote env f _ h) (by simp [isRemoteEv])
    · rcases h with h | h
      · cases h
        exact hd
      · rcases h with h | h
        · cases h
        · cases h
    · exact absurd (perSongImage_events_remote env f _ h) (by simp [isRemoteEv])
    · rcases h with h | h
      · cases h
        exact hd
      · cases h
  · simp [ho] at hmem

theorem processSongs_write_bytes (env : Env) (d : ByteStr) (hd : d ≠ [])
    (fs : List SongFile) :
    ∀ n b ok, Ev.write n b ok ∈ (processSongs env d fs).events → b ≠ [] := by
  induction fs with
  | nil => simp [processSongs]
  | cons f fs ih =>
    intro n b ok hmem
    simp only [processSongs, List.mem_append] at hmem
    cases hmem with
    | inl h => exact processSong_write_bytes env d f hd n b ok h
    | inr h => exact ih n b ok h

/-! ## Claim C9 -/

/-- C9: image normalization is idempotent on an already-normalized
image.  Applying `resize_image` (bytes to bytes, source default
`max_size=512`) to its own output changes nothing: the second pass
decodes an RGB image whose dimensions already respect the 512-pixel
bound, so neither conversion nor downscaling fires and the re-encoded
output is identical — in particular the dimensions are unchanged and
the format is still the same JPEG encoding. -/
theorem resize_image_bytes_idempotent (j : JpegBytes)
    (hw : 1 ≤ j.width) (hh : 1 ≤ j.height) :
    resize_image_bytes (resize_image_bytes j) = resize_image_bytes j ∧
    1 ≤ (resize_image_bytes j).width ∧ (resize_image_bytes j).width ≤ 512 ∧
    1 ≤ (resize_image_bytes j).height ∧ (resize_image_bytes j).height ≤ 512 := by
  have hmode := resize_image_mode (openImage j) 512
  have hle := resize_image_le (openImage j) 512 (by omega)
  have hpos := resize_image_pos (openImage j) 512 (by omega) hw hh
  refine ⟨?_, hpos.1, hle.1, hpos.2, hle.2⟩
  show saveJpeg (resize_image (openImage (saveJpeg (resize_image (openImage j) 512))) 512) =
    saveJpeg (resize_image (openImage j) 512)
  rw [openImage_saveJpeg _ hmode, resize_image_idem _ _ (by omega)]

/-- Witness for C9 at a concrete 1024x512 input (normalized to 512x256). -/
theorem resize_image_bytes_idempotent_witness :
    resize_image_bytes (resize_image_bytes { width := 1024, height := 512 }) =
      resize_image_bytes { width := 1024, height := 512 } ∧
    1 ≤ (resize_image_bytes { width := 1024, height := 512 }).width ∧
    (resize_image_bytes { width := 1024, height := 512 }).width ≤ 512 ∧
    1 ≤ (resize_image_bytes { width := 1024, height := 512 }).height ∧
    (resize_image_bytes { width := 1024, height := 512 }).height ≤ 512 :=
  resize_image_bytes_idempotent { width := 1024, height := 512 } (by decide) (by decide)

/-! ## Claim C10 -/

/-- C10: once the artwork tool's arguments parse (at least one
argument, and the `album` literal followed by at least one folder),
the process exit code is 0 for every environment — however many
per-file operations failed, the accumulated counts never reach the
exit code. -/
theorem artwork_cli_exit_zero (a1 : String) (rest : List String)
    (envOf : String → Env) (hparse : a1 = "album" → rest ≠ []) :
    (albumArt_main (a1 :: rest) envOf).1 = 0 := by
  unfold albumArt_main
  by_cases h : a1 = "album"
  · cases rest with
    | nil => exact absurd rfl (hparse h)
    | cons r rs => simp [h]
  · simp [h]

/-- A deliberately failing world: invalid directory, failing files,
failing lookups. -/
def envAllFail : Env :=
  { isDir := true
    m4aFiles := [{ name := "x.m4a"
                   tags := { title := some ("T"), artist := none, album := none, covr := none }
                   openOk := true, saveOk := false }]
    cover := none
    folderName := "F"
    resizeFn := fun _ => none
    mbResponse := fun _ _ => none
    coverResponse := fun _ => none
    unlinkOk := false }

/-- Witness for C10: exit code 0 on a folder whose only file fails. -/
theorem artwork_cli_exit_zero_witness :
    (albumArt_main (["album", "F"]) (fun _ => envAllFail)).1 = 0 :=
  artwork_cli_exit_zero ("album") (["F"]) (fun _ => envAllFail) (fun _ => by decide)

/-! ## Claim C8 -/

/-- An invalid-directory world for the artwork tool. -/
def envC8 : Env :=
  { isDir := false
    m4aFiles := []
    cover := none
    folderName := "bad"
    resizeFn := fun _ => none
    mbResponse := fun _ _ => none
    coverResponse := fun _ => none
    unlinkOk := true }

/-- C8 counterexample: handed an invalid folder path, the artwork tool
prints the error inside `add_album_art_to_folder` /
`add_album_art_per_song`, returns `(0, 0)` and finishes with exit code
0 in both modes — the invocation is not fatal and the exit code is not
non-zero as the claim requires. -/
theorem artwork_invalid_folder_exit_zero :
    envC8.isDir = false ∧
    (albumArt_main (["album", "bad"]) (fun _ => envC8)).1 = 0 ∧
    (albumArt_main (["bad"]) (fun _ => envC8)).1 = 0 := by decide

/-- C8 amended: an invalid folder path is fatal only for metadata.py,
whose `update_m4a_metadata` calls `sys.exit(1)`; the artwork tool
reports the bad folder, records zero counts for it, and still exits 0. -/
theorem invalid_folder_fatal_only_metadata (menvOf : String → MetaEnv)
    (aenvOf : String → Env) (fp : String)
    (hm : (menvOf fp).isDir = false) (ha : (aenvOf fp).isDir = false) :
    metadata_main (["set", fp]) menvOf = 1 ∧
    metadata_main (["del", fp]) menvOf = 1 ∧
    albumArt_main (["album", fp]) aenvOf = (0, 0, 0) ∧
    (fp ≠ "album" → albumArt_main ([fp]) aenvOf = (0, 0, 0)) ∧
    (add_album_art_to_folder (aenvOf fp)).succeeded = 0 ∧
    (add_album_art_to_folder (aenvOf fp)).failed = 0 ∧
    (add_album_art_per_song (aenvOf fp)).succeeded = 0 ∧
    (add_album_art_per_song (aenvOf fp)).failed = 0 := by
  refine ⟨?_, ?_, ?_, ?_, ?_, ?_, ?_, ?_⟩
  · simp [metadata_main, update_m4a_metadata, hm]
  · simp [metadata_main, update_m4a_metadata, hm]
  · simp [albumArt_main, add_album_art_to_folder, ha]
  · intro hne
    simp [albumArt_main, hne, add_album_art_per_song, ha]
  · simp [add_album_art_to_folder, ha]
  · simp [add_album_art_to_folder, ha]
  · simp [add_album_art_per_song, ha]
  · simp [add_album_art_per_song, ha]

/-- An invalid-directory world for the metadata tool. -/
def menvC8 : MetaEnv := { isDir := false, files := [], folderName := "bad" }

/-- Witness for the amended C8 at concrete invalid-folder worlds. -/
theorem invalid_folder_fatal_only_metadata_witness :
    metadata_main (["set", "bad"]) (fun _ => menvC8) = 1 ∧
    metadata_main (["del", "bad"]) (fun _ => menvC8) = 1 ∧
    albumArt_main (["album", "bad"]) (fun _ => envC8) = (0, 0, 0) :=
  ⟨(invalid_folder_fatal_only_metadata (fun _ => menvC8) (fun _ => envC8) ("bad") rfl rfl).1,
   (invalid_folder_fatal_only_metadata (fun _ => menvC8) (fun _ => envC8) ("bad") rfl rfl).2.1,
   (invalid_folder_fatal_only_metadata (fun _ => menvC8) (fun _ => envC8) ("bad") rfl rfl).2.2.1⟩

/-! ## Claim C7 -/

theorem setAlbumTags_album (v : Option String) (t : Tags) :
    (setAlbumTags v t).album = (if pyTruthyS v then v else none) := by
  unfold setAlbumTags
  by_cases hv : pyTruthyS v = true <;> by_cases ha : t.album.isSome = true <;>
    simp [hv, ha]
  exact Option.not_isSome_iff_eq_none.mp (by simp [ha])

theorem setAlbumTags_rest (v : Option String) (t : Tags) :
    (setAlbumTags v t).title = t.title ∧ (setAlbumTags v t).artist = t.artist ∧
    (setAlbumTags v t).covr = t.covr := by
  unfold setAlbumTags
  by_cases hv : pyTruthyS v = true <;> by_cases ha : t.album.isSome = true <;>
    simp [hv, ha]

/-- A file carrying an old album tag, for the C7 counterexample. -/
def fileC7 : SongFile :=
  { name := "a.m4a"
    tags := { title := some ("T"), artist := none, album := some ("Old"), covr := none }
    openOk := true, saveOk := true }

/-- The editor's world for the C7 counterexample. -/
def menvC7 : MetaEnv := { isDir := true, files := [fileC7], folderName := "Z" }

/-- The explicitly given empty-string album value. -/
def emptyValue : Option String := some ("")

/-- C7 counterexample: a value IS given (`""`, e.g. `set <folder> ""`),
yet after the run the album tag is absent rather than set to that
value: `if album_name:` treats the given empty string like an omitted
value. -/
theorem empty_album_value_clears_tag :
    emptyValue.isSome = true ∧
    ((update_m4a_metadata menvC7 emptyValue).getD []).map (fun g => g.tags.album) =
      [none] := by decide

/-- C7 amended: for every matched file that the editor can read and
save, the album tag is first removed and then set exactly when the
given value is truthy (present and non-empty); with an omitted or
empty value the tag ends fully absent.  The final tag set IS the
re-read state of the file, and no other slot moves. -/
theorem album_tag_delete_then_set (env : MetaEnv) (v : Option String) (f : SongFile)
    (hdir : env.isDir = true) (hf : f ∈ env.files)
    (ho : f.openOk = true) (hs : f.saveOk = true) :
    updateAlbumFile v f ∈ (update_m4a_metadata env v).getD [] ∧
    (updateAlbumFile v f).tags.album = (if pyTruthyS v then v else none) ∧
    (updateAlbumFile v f).name = f.name ∧
    (updateAlbumFile v f).tags.title = f.tags.title ∧
    (updateAlbumFile v f).tags.artist = f.tags.artist ∧
    (updateAlbumFile v f).tags.covr = f.tags.covr := by
  have hok : (f.openOk && f.saveOk) = true := by simp [ho, hs]
  refine ⟨?_, ?_, ?_, ?_, ?_, ?_⟩
  · simp only [update_m4a_metadata, hdir, if_true, Option.getD_some]
    exact List.mem_map_of_mem _ hf
  · simp [updateAlbumFile, hok, setAlbumTags_album]
  · simp [updateAlbumFile, hok]
  · simp [updateAlbumFile, hok, (setAlbumTags_rest v f.tags).1]
  · simp [updateAlbumFile, hok, (setAlbumTags_rest v f.tags).2.1]
  · simp [updateAlbumFile, hok, (setAlbumTags_rest v f.tags).2.2]

/-- The truthy value used by the C7 witness. -/
def newAlbum : Option String := some ("New")

/-- Witness for the amended C7: setting a non-empty value on `fileC7`. -/
theorem album_tag_delete_then_set_witness :
    updateAlbumFile newAlbum fileC7 ∈ (update_m4a_metadata menvC7 newAlbum).getD [] ∧
    (updateAlbumFile newAlbum fileC7).tags.album =
      (if pyTruthyS newAlbum then newAlbum else none) ∧
    (updateAlbumFile newAlbum fileC7).name = fileC7.name :=
  ⟨(album_tag_delete_then_set menvC7 newAlbum fileC7 rfl (by decide) rfl rfl).1,
   (album_tag_delete_then_set menvC7 newAlbum fileC7 rfl (by decide) rfl rfl).2.1,
   (album_tag_delete_then_set menvC7 newAlbum fileC7 rfl (by decide) rfl rfl).2.2.1⟩

/-! ## Claim C1 -/

/-- A readable, taggable file for the C1 worlds. -/
def fileC1 : SongFile :=
  { name := "Song1.m4a"
    tags := { title := some ("T"), artist := some ("A"), album := some ("Alb"), covr := none }
    openOk := true, saveOk := true }

/-- A folder whose `cover.jpg` exists but is empty (zero bytes). -/
def envC1 : Env :=
  { isDir := true
    m4aFiles := [fileC1]
    cover := some []
    folderName := "F"
    resizeFn := fun b => some b
    mbResponse := fun _ _ => some ("rid1")
    coverResponse := fun _ => some [7]
    unlinkOk := true }

/-- C1 counterexample: the folder DOES contain a local `cover.jpg`
(it exists, with empty content), yet `if image_data:` treats the empty
bytes as falsy, `used_local_cover` stays false and the recording-search
endpoint is contacted — the claimed "no remote call for every folder
containing a cover.jpg" fails. -/
theorem local_cover_empty_triggers_remote :
    envC1.cover.isSome = true ∧
    (add_album_art_to_folder envC1).usedLocal = false ∧
    Ev.mbSearch (some ("Alb")) (some ("A")) ∈ (add_album_art_to_folder envC1).events := by
  decide

/-- C1 amended: for every folder containing a NON-EMPTY (readable)
`cover.jpg`, shared-mode resolution marks the artwork as local, never
derives a search query, performs no remote call, and the artwork
delivered to the write loop is exactly the normalization of that
file's bytes (the placeholder only if normalization fails). -/
theorem local_cover_nonempty_no_remote (env : Env) (f0 : SongFile)
    (rest : List SongFile) (b : ByteStr)
    (hdir : env.isDir = true) (hfiles : env.m4aFiles = f0 :: rest)
    (hcov : env.cover = some b) (hb : b ≠ []) :
    (add_album_art_to_folder env).usedLocal = true ∧
    (add_album_art_to_folder env).searchInfo = none ∧
    (∀ e ∈ (add_album_art_to_folder env).events, isRemoteEv e = false) ∧
    (add_album_art_to_folder env).artwork = some (finalizeImage (env.resizeFn b)) := by
  have htr : pyTruthyB (load_local_cover env) = true := by
    simp only [load_local_cover, hcov]
    exact (pyTruthyB_some_iff b).mpr hb
  have hres : sharedResolve env f0 =
      { image := finalizeImage (env.resizeFn b), usedLocal := true
        searchInfo := none, events := [] } := by
    unfold sharedResolve
    simp [htr, load_local_cover, hcov]
    exact (pyTruthyB_some_iff b).mpr hb
  rw [add_album_art_to_folder_eq env f0 rest hdir hfiles]
  dsimp only
  rw [hres]
  refine ⟨rfl, rfl, ?_, rfl⟩
  intro e he
  simp only [List.nil_append, List.mem_append] at he
  rcases he with h | h
  · obtain ⟨n, ok, rfl⟩ := writeLoop_events_shape _ _ _ h
    rfl
  · split at h
    · simp only [List.mem_singleton] at h
      subst h
      rfl
    · simp at h

/-- A folder with a non-empty `cover.jpg` and one healthy file. -/
def envC1w : Env :=
  { isDir := true
    m4aFiles := [fileC1]
    cover := some [3, 4]
    folderName := "F"
    resizeFn := fun b => some b
    mbResponse := fun _ _ => some ("rid1")
    coverResponse := fun _ => some [7]
    unlinkOk := true }

/-- Witness for the amended C1 at the concrete world `envC1w`. -/
theorem local_cover_nonempty_no_remote_witness :
    (add_album_art_to_folder envC1w).usedLocal = true ∧
    (add_album_art_to_folder envC1w).searchInfo = none ∧
    (add_album_art_to_folder envC1w).artwork =
      some (finalizeImage (envC1w.resizeFn [3, 4])) :=
  ⟨(local_cover_nonempty_no_remote envC1w fileC1 [] [3, 4] rfl rfl rfl (by decide)).1,
   (local_cover_nonempty_no_remote envC1w fileC1 [] [3, 4] rfl rfl rfl (by decide)).2.1,
   (local_cover_nonempty_no_remote envC1w fileC1 [] [3, 4] rfl rfl rfl (by decide)).2.2.2⟩

/-! ## Claim C2 -/

/-- C2: in shared mode (on a valid folder with at least one matched
file) the deletion of `cover.jpg` is attempted iff the artwork came
from the local cover file (the code's `used_local_cover` flag, i.e.
the folder had a truthy local cover) and no file's write failed;
`failed = 0` says exactly that every matched file's open-and-save
succeeded; when no deletion is attempted the cover file is left
intact; and the outcome of the unlink call has no effect on the
returned success/failure counts. -/
theorem shared_cover_deletion_iff (env : Env) (f0 : SongFile) (rest : List SongFile)
    (hdir : env.isDir = true) (hfiles : env.m4aFiles = f0 :: rest) :
    ((add_album_art_to_folder env).deletionAttempted =
      ((add_album_art_to_folder env).usedLocal &&
        decide ((add_album_art_to_folder env).failed = 0))) ∧
    ((add_album_art_to_folder env).usedLocal = pyTruthyB env.cover) ∧
    ((add_album_art_to_folder env).failed = 0 ↔
      ∀ f ∈ env.m4aFiles, f.openOk = true ∧ f.saveOk = true) ∧
    ((add_album_art_to_folder env).deletionAttempted = false →
      (add_album_art_to_folder env).coverAfter = env.cover) ∧
    (∀ b : Bool,
      (add_album_art_to_folder { env with unlinkOk := b }).succeeded =
        (add_album_art_to_folder env).succeeded ∧
      (add_album_art_to_folder { env with unlinkOk := b }).failed =
        (add_album_art_to_folder env).failed) := by
  rw [add_album_art_to_folder_eq env f0 rest hdir hfiles]
  dsimp only
  refine ⟨?_, ?_, ?_, ?_, ?_⟩
  · by_cases hfz : (writeLoop (sharedResolve env f0).image (f0 :: rest)).failed = 0
    · have hcnt := writeLoop_counts (sharedResolve env f0).image (f0 :: rest)
      have hpos : 0 < (writeLoop (sharedResolve env f0).image (f0 :: rest)).succeeded := by
        simp only [List.length_cons] at hcnt
        omega
      simp [hfz, hpos]
    · simp [hfz]
  · unfold sharedResolve
    by_cases h : pyTruthyB (load_local_cover env) = true <;>
      simp [h, load_local_cover] <;> simp [load_local_cover] at h <;> simp [h]
  · rw [hfiles]
    exact writeLoop_failed_zero _ _
  · intro hatt
    rw [hatt]
    simp
  · intro b
    rw [add_album_art_to_folder_eq { env with unlinkOk := b } f0 rest hdir hfiles]
    exact ⟨rfl, rfl⟩

/-- A healthy one-file folder with a non-empty local cover. -/
def envC2 : Env :=
  { isDir := true
    m4aFiles := [fileC1]
    cover := some [3, 4]
    folderName := "F"
    resizeFn := fun b => some b
    mbResponse := fun _ _ => none
    coverResponse := fun _ => none
    unlinkOk := true }

/-- Witness for C2 at the concrete world `envC2`. -/
theorem shared_cover_deletion_iff_witness :
    ((add_album_art_to_folder envC2).deletionAttempted =
      ((add_album_art_to_folder envC2).usedLocal &&
        decide ((add_album_art_to_folder envC2).failed = 0))) ∧
    ((add_album_art_to_folder envC2).usedLocal = pyTruthyB envC2.cover) ∧
    ((add_album_art_to_folder envC2).deletionAttempted = false →
      (add_album_art_to_folder envC2).coverAfter = envC2.cover) :=
  ⟨(shared_cover_deletion_iff envC2 fileC1 [] rfl rfl).1,
   (shared_cover_deletion_iff envC2 fileC1 [] rfl rfl).2.1,
   (shared_cover_deletion_iff envC2 fileC1 [] rfl rfl).2.2.2.1⟩

/-! ## Claim C3 -/

/-- C3: every artwork resolution delivers some non-empty image bytes to
the applicator.  In shared mode (valid folder, at least one matched
file) the resolved artwork exists and is non-empty — local bytes,
remote bytes, or the generated placeholder, thanks to the final
`if not image_data:` fallback; and in BOTH modes every write event
carries non-empty bytes. -/
theorem resolution_always_delivers_bytes (env : Env) :
    (env.isDir = true → env.m4aFiles ≠ [] →
      ∃ b, (add_album_art_to_folder env).artwork = some b ∧ b ≠ []) ∧
    (∀ n b ok, Ev.write n b ok ∈ (add_album_art_to_folder env).events → b ≠ []) ∧
    (∀ n b ok, Ev.write n b ok ∈ (add_album_art_per_song env).events → b ≠ []) := by
  refine ⟨?_, ?_, ?_⟩
  · intro hdir hne
    cases hm : env.m4aFiles with
    | nil => exact absurd hm hne
    | cons f0 rest =>
      rw [add_album_art_to_folder_eq env f0 rest hdir hm]
      exact ⟨(sharedResolve env f0).image, rfl, sharedResolve_image_ne_nil env f0⟩
  · intro n b ok hmem
    by_cases hdir : env.isDir = true
    · cases hm : env.m4aFiles with
      | nil => simp [add_album_art_to_folder, hdir, hm] at hmem
      | cons f0 rest =>
        rw [add_album_art_to_folder_eq env f0 rest hdir hm] at hmem
        dsimp only at hmem
        rcases List.mem_append.mp hmem with h | h
        · rcases List.mem_append.mp h with h1 | h1
          · exact absurd (sharedResolve_events_remote env f0 _ h1) (by simp [isRemoteEv])
          · obtain ⟨n2, ok2, heq⟩ := writeLoop_events_shape _ _ _ h1
            have hb : b = (sharedResolve env f0).image := by
              injection heq with e1 e2 e3
            rw [hb]
            exact sharedResolve_image_ne_nil env f0
        · split at h
          · simp only [List.mem_singleton] at h
            cases h
          · simp at h
    · simp [add_album_art_to_folder, hdir] at hmem
  · intro n b ok hmem
    by_cases hdir : env.isDir = true
    · cases hm : env.m4aFiles with
      | nil => simp [add_album_art_per_song, hdir, hm] at hmem
      | cons f fs =>
        have hrun : add_album_art_per_song env =
            processSongs env create_default_artwork (f :: fs) := by
          simp [add_album_art_per_song, hdir, hm]
        rw [hrun] at hmem
        exact processSongs_write_bytes env create_default_artwork
          create_default_artwork_ne_nil (f :: fs) n b ok hmem
    · simp [add_album_art_per_song, hdir] at hmem

/-- A world where every source of artwork is hostile: no cover, the
lookup fails, the image library rejects everything.  The placeholder
still flows to the writes. -/
def envC3 : Env :=
  { isDir := true
    m4aFiles := [fileC1]
    cover := none
    folderName := "F"
    resizeFn := fun _ => none
    mbResponse := fun _ _ => none
    coverResponse := fun _ => none
    unlinkOk := true }

/-- Witness for C3 at the concrete world `envC3`. -/
theorem resolution_always_delivers_bytes_witness :
    ∃ b, (add_album_art_to_folder envC3).artwork = some b ∧ b ≠ [] :=
  (resolution_always_delivers_bytes envC3).1 rfl (by decide)

/-! ## Claim C4 -/

/-- A first file with no album and no title but a present artist tag. -/
def fileC4 : SongFile :=
  { name := "s.m4a"
    tags := { title := none, artist := some ("Art"), album := none, covr := none }
    openOk := true, saveOk := true }

/-- A folder without cover whose first file only carries an artist. -/
def envC4 : Env :=
  { isDir := true
    m4aFiles := [fileC4]
    cover := none
    folderName := "FolderZ"
    resizeFn := fun _ => none
    mbResponse := fun _ _ => none
    coverResponse := fun _ => none
    unlinkOk := true }

/-- C4 counterexample: the first file's artist tag is present (and
truthy), yet because neither album nor title is set the code falls to
the folder-name branch with `search_artist = None` — the artist is NOT
attached to the query, contradicting "whenever the artist tag is
present". -/
theorem folder_fallback_drops_artist :
    pyTruthyS fileC4.tags.artist = true ∧
    (add_album_art_to_folder envC4).searchInfo =
      some (("FolderZ" : String), (none : Option String)) := by decide

/-- C4 amended: in shared mode without a usable local cover and with a
readable first file, the search text is derived in priority order
album tag, then title tag (truthy, i.e. present and non-empty), then
folder name; the artist tag is attached exactly when the album or
title branch was taken — the folder-name fallback always attaches no
artist, even when the artist tag is present. -/
theorem shared_search_priority (env : Env) (f0 : SongFile) (rest : List SongFile)
    (hdir : env.isDir = true) (hfiles : env.m4aFiles = f0 :: rest)
    (hcov : pyTruthyB env.cover = false) (hopen : f0.openOk = true) :
    (pyTruthyS f0.tags.album = true →
      (add_album_art_to_folder env).searchInfo =
        some (orEmpty f0.tags.album, f0.tags.artist)) ∧
    (pyTruthyS f0.tags.album = false → pyTruthyS f0.tags.title = true →
      (add_album_art_to_folder env).searchInfo =
        some (orEmpty f0.tags.title, f0.tags.artist)) ∧
    (pyTruthyS f0.tags.album = false → pyTruthyS f0.tags.title = false →
      (add_album_art_to_folder env).searchInfo = some (env.folderName, none)) := by
  rw [add_album_art_to_folder_eq env f0 rest hdir hfiles]
  dsimp only
  have hloc : pyTruthyB (load_local_cover env) = false := by
    simp [load_local_cover, hcov]
  refine ⟨?_, ?_, ?_⟩
  · intro ha
    simp [sharedResolve, hloc, sharedQuery, hopen, ha]
  · intro ha ht
    simp [sharedResolve, hloc, sharedQuery, hopen, ha, ht]
  · intro ha ht
    simp [sharedResolve, hloc, sharedQuery, hopen, ha, ht]

/-- Witness for the amended C4: album-tag branch at a concrete world. -/
theorem shared_search_priority_witness :
    (add_album_art_to_folder envC3).searchInfo =
      some (orEmpty fileC1.tags.album, fileC1.tags.artist) :=
  (shared_search_priority envC3 fileC1 [] rfl rfl rfl rfl).1 rfl

/-! ## Claim C5 -/

/-- A per-file world where the remote lookup finds nothing but the
file itself opens and saves fine. -/
def envC5 : Env :=
  { isDir := true
    m4aFiles := [fileC1]
    cover := none
    folderName := "F"
    resizeFn := fun b => some b
    mbResponse := fun _ _ => none
    coverResponse := fun _ => none
    unlinkOk := true }

/-- C5 counterexample: the lookup fails, the placeholder IS written and
saved successfully (`ok = true` write event, `Saved` path), yet the
run reports `failed = 1` and `succeeded = 0` — the lookup failure
itself was counted as a failure, not only write/save exceptions as the
claim requires. -/
theorem lookup_failure_counted_failed :
    (add_album_art_per_song envC5).failed = 1 ∧
    (add_album_art_per_song envC5).succeeded = 0 ∧
    Ev.write ("Song1.m4a") create_default_artwork true ∈
      (add_album_art_per_song envC5).events := by decide

/-- C5 amended: in per-file mode, when a file's remote lookup fails
(and the file itself opens and saves fine) the generated placeholder
is still written into that file's cover tag and the write is carried
out normally — but the failed lookup itself increments the failure
count (`failed += 1` before the save), so the file counts as failed,
not merely "processed"; a write/save exception would add a further
failure on top. -/
theorem perfile_lookup_failure_behavior (env : Env) (f : SongFile)
    (ho : f.openOk = true) (hs : f.saveOk = true)
    (hl : pyTruthyB (perSongImage env f).1 = false) :
    (processSong env create_default_artwork f).succeeded = 0 ∧
    (processSong env create_default_artwork f).failed = 1 ∧
    (processSong env create_default_artwork f).files =
      [{ f with tags := { f.tags with covr := some create_default_artwork } }] ∧
    Ev.write f.name create_default_artwork true ∈
      (processSong env create_default_artwork f).events ∧
    (env.isDir = true → env.m4aFiles = [f] →
      (add_album_art_per_song env).succeeded = 0 ∧
      (add_album_art_per_song env).failed = 1 ∧
      (add_album_art_per_song env).files =
        [{ f with tags := { f.tags with covr := some create_default_artwork } }]) := by
  have hps : processSong env create_default_artwork f =
      { succeeded := 0, failed := 1
        events := (perSongImage env f).2 ++
          [Ev.write f.name create_default_artwork true, Ev.sleep]
        files := [{ f with tags := { f.tags with covr := some create_default_artwork } }] } := by
    unfold processSong
    simp [ho, hs, hl]
  refine ⟨by rw [hps], by rw [hps], by rw [hps], ?_, ?_⟩
  · rw [hps]
    simp
  · intro hdir hm
    have hrun : add_album_art_per_song env =
        processSongs env create_default_artwork [f] := by
      simp [add_album_art_per_song, hdir, hm]
    rw [hrun]
    simp [processSongs, hps]

/-- Witness for the amended C5 at the concrete world `envC5`. -/
theorem perfile_lookup_failure_behavior_witness :
    (processSong envC5 create_default_artwork fileC1).succeeded = 0 ∧
    (processSong envC5 create_default_artwork fileC1).failed = 1 ∧
    Ev.write fileC1.name create_default_artwork true ∈
      (processSong envC5 create_default_artwork fileC1).events :=
  ⟨(perfile_lookup_failure_behavior envC5 fileC1 rfl rfl (by decide)).1,
   (perfile_lookup_failure_behavior envC5 fileC1 rfl rfl (by decide)).2.1,
   (perfile_lookup_failure_behavior envC5 fileC1 rfl rfl (by decide)).2.2.2.1⟩

/-! ## Claim C6 -/

/-- A file whose save raises. -/
def fileC6 : SongFile :=
  { name := "Song1.m4a"
    tags := { title := some ("T"), artist := some ("A"), album := some ("Alb"), covr := none }
    openOk := true, saveOk := false }

/-- A per-file world where the lookup SUCCEEDS but the save raises. -/
def envC6 : Env :=
  { isDir := true
    m4aFiles := [fileC6]
    cover := none
    folderName := "F"
    resizeFn := fun b => some b
    mbResponse := fun _ _ => some ("rid1")
    coverResponse := fun _ => some [7]
    unlinkOk := true }

/-- C6 counterexample: the file's lookup succeeds (`succeeded = 1` was
counted) but its save raises, the exception handler takes over and the
`time.sleep(1.1)` inside the `try` block is skipped — no sleep event
occurs after this file's processing, so the delay is NOT applied
unconditionally after each file. -/
theorem save_exception_skips_sleep :
    (add_album_art_per_song envC6).succeeded = 1 ∧
    (add_album_art_per_song envC6).failed = 1 ∧
    Ev.sleep ∉ (add_album_art_per_song envC6).events := by decide

/-- C6 amended: the fixed inter-request delay fires after a file's
processing if and only if that file's processing ran to completion
without an exception (open and save both succeeded) — in particular it
fires regardless of whether the lookup succeeded or failed, but it is
skipped entirely for a file whose open or save raises. -/
theorem sleep_after_each_completed_file (env : Env) (f : SongFile) :
    (Ev.sleep ∈ (processSong env create_default_artwork f).events ↔
      (f.openOk && f.saveOk) = true) ∧
    (env.isDir = true → env.m4aFiles = [f] →
      (Ev.sleep ∈ (add_album_art_per_song env).events ↔
        (f.openOk && f.saveOk) = true)) := by
  have hmain : Ev.sleep ∈ (processSong env create_default_artwork f).events ↔
      (f.openOk && f.saveOk) = true := by
    constructor
    · intro hmem
      unfold processSong at hmem
      by_cases ho : f.openOk = true
      · by_cases hs : f.saveOk = true
        · simp [ho, hs]
        · simp only [ho, hs, if_true, Bool.false_eq_true, if_false,
            List.mem_append, List.mem_singleton] at hmem
          rcases hmem with h | h
          · exact absurd (perSongImage_events_remote env f _ h) (by simp [isRemoteEv])
          · cases h
      · simp [ho] at hmem
    · intro hok
      have ho : f.openOk = true := (Bool.and_eq_true_iff.mp hok).1
      have hs : f.saveOk = true := (Bool.and_eq_true_iff.mp hok).2
      unfold processSong
      simp [ho, hs]
  refine ⟨hmain, ?_⟩
  intro hdir hm
  have hrun : add_album_art_per_song env =
      processSongs env create_default_artwork [f] := by
    simp [add_album_art_per_song, hdir, hm]
  rw [hrun]
  simpa [processSongs] using hmain

/-- Witness for the amended C6 at the concrete world `envC6` (save
fails, hence no sleep). -/
theorem sleep_after_each_completed_file_witness :
    Ev.sleep ∈ (add_album_art_per_song envC6).events ↔
      (fileC6.openOk && fileC6.saveOk) = true :=
  (sleep_after_each_completed_file envC6 fileC6).2 rfl rfl

end MusicFileTools
